import Mathlib

/-!
Verification development for the Invoice3 validation pipeline.

Shallow embedding of the core decision logic of the repository:
- `calculate_quality` embeds `ADEService._calculate_quality`
  (backend/app/services/ade_service.py);
- `determine_recommendation`, `invoke_llm`, `match_agent`, `fraud_agent`,
  `validate_invoice` embed the corresponding methods of
  `AgenticValidationService` (backend/app/services/agentic_validation_service.py);
- `runPipeline` embeds `process_invoice_background`
  (backend/app/api/invoices.py) as a function producing the ordered list of
  `Invoice.update` calls the background task issues.

Python values flowing through the system (extracted fields, LLM JSON
payloads) are modelled by the inductive `JValue`; Python numbers are
modelled by exact rationals (`round(x, 1)` is modelled by `round1`, exact
ties-to-even on rationals).  Failures of the two external capabilities
(document extraction, generative calls) are explicit `Except`/`LLMResp`
inputs; Python exceptions raised by the embedded code itself (attribute,
type and key errors on malformed payloads) are modelled by `Except.error`.
Database reads/writes are explicit state: the stores of PO/GRN/vendor
records are read-only lists, and the invoice record's updates are
reified as `InvUpdate` values in call order.
-/

/-- A Python/JSON value: `None`, booleans, numbers (exact rationals),
strings, lists and dicts (association lists in insertion order). -/
inductive JValue where
  | null : JValue
  | bool : Bool → JValue
  | num : ℚ → JValue
  | str : String → JValue
  | arr : List JValue → JValue
  | obj : List (String × JValue) → JValue

/-- Dict lookup (`d[k]` / `k in d`): first binding wins, as in a Python
dict with unique keys. -/
def lookupKvs (kvs : List (String × JValue)) (k : String) : Option JValue :=
  (kvs.find? (fun p => p.1 == k)).map (fun p => p.2)

/-- Python truthiness of a value (`bool(x)`). -/
def jtruthy : JValue → Bool
  | .null => false
  | .bool b => b
  | .num q => !(q == 0)
  | .str s => !(s == "")
  | .arr xs => !xs.isEmpty
  | .obj kvs => !kvs.isEmpty

/-- Truthiness of an optional value (a Python variable that may be `None`). -/
def otruthy : Option JValue → Bool
  | none => false
  | some v => jtruthy v

/-- Python `str(x)` as used in f-string log messages.  Container reprs are
abbreviated; no theorem below inspects a rendered container. -/
def pyStr : JValue → String
  | .null => "None"
  | .bool b => if b then "True" else "False"
  | .str s => s
  | .num q => if q.den = 1 then toString q.num else toString q
  | .arr _ => "<list>"
  | .obj _ => "<dict>"

/-- Render an optional value the way a Python f-string renders a variable
that may be `None`. -/
def pyStrOpt : Option JValue → String
  | none => "None"
  | some v => pyStr v

/-- Membership test `x in [None, '', 0, []]` (Python `==` semantics:
`False == 0` and `0.0 == 0` hold, `{} == []` does not). -/
def inNoneEmptyZero : JValue → Bool
  | .null => true
  | .str s => s == ""
  | .num q => q == 0
  | .bool b => !b
  | .arr xs => xs.isEmpty
  | .obj _ => false

/-- Rounding of `q` to the nearest integer, ties to even — the semantics of
Python round applied to an exactly representable value. -/
def roundHalfEven (q : ℚ) : ℤ :=
  let f := ⌊q⌋
  let r := q - (f : ℚ)
  if r < 1 / 2 then f
  else if 1 / 2 < r then f + 1
  else if f % 2 = 0 then f else f + 1

/-- Python `round(q, 1)` on exact rationals. -/
def round1 (q : ℚ) : ℚ := (roundHalfEven (10 * q) : ℚ) / 10

/-- The list `core_fields` of `ADEService._calculate_quality`, verbatim from
the source (it has 25 entries). -/
def core_fields : List String :=
  ["vendor_name", "vendor_address", "vendor_city", "vendor_state",
   "vendor_zip", "vendor_tax_id",
   "bank_name", "bank_account",
   "invoice_number", "invoice_date", "due_date", "po_number", "currency",
   "issue_date",
   "subtotal", "tax", "total", "amount_due", "tax_rate", "discount",
   "payment_terms", "delivery_address", "billing_address",
   "line_items",
   "notes"]

/-- The list `critical_fields` of `ADEService._calculate_quality`. -/
def critical_fields : List String :=
  ["vendor_name", "invoice_number", "total", "invoice_date", "po_number"]

/-- One core field's populated test: `validated.get(f) not in [None, '', 0, []]`. -/
def corePopulated (validated : List (String × JValue)) (f : String) : Bool :=
  match lookupKvs validated f with
  | none => false
  | some x => !(inNoneEmptyZero x)

/-- `ADEService._calculate_quality`, transcribed from the source: core
coverage out of `len(core_fields)` worth 50 points, critical coverage out
of `len(critical_fields)` worth 40, a line-items bonus up to 10, capped at
100 and rounded to one decimal. -/
def calculate_quality (validated : List (String × JValue)) : ℚ :=
  let core_populated : ℕ := core_fields.countP (fun f => corePopulated validated f)
  let critical_populated : ℕ :=
    critical_fields.countP (fun f => otruthy (lookupKvs validated f))
  let core_score : ℚ := ((core_populated : ℚ) / (core_fields.length : ℚ)) * 50
  let critical_score : ℚ :=
    ((critical_populated : ℚ) / (critical_fields.length : ℚ)) * 40
  let line_items : JValue :=
    match lookupKvs validated "line_items" with
    | some v => v
    | none => .arr []
  let line_items_bonus : ℚ :=
    match line_items with
    | .arr xs => if 0 < xs.length then min 10 ((xs.length : ℚ) * 2) else 0
    | _ => 0
  round1 (min 100 (core_score + critical_score + line_items_bonus))

/-- Spec-side populated predicate, from the spec's words: a field counts as
populated iff its value is present and is not null, an empty string, a
value equal to zero (Python `False` compares equal to zero), or an empty
sequence.  An empty mapping is not one of the listed exclusions. -/
def specPopulated : Option JValue → Bool
  | none => false
  | some JValue.null => false
  | some (JValue.str s) => !(s == "")
  | some (JValue.num q) => !(q == 0)
  | some (JValue.bool b) => b
  | some (JValue.arr xs) => !xs.isEmpty
  | some (JValue.obj _) => true

/-- Spec-side quality formula (amended): core coverage out of 25 core
fields worth 50 points, critical coverage (Python-truthy values) out of 5
worth 40, plus `min 10 (2 * count line_items)` when `line_items` is a
non-empty list, capped at 100 and rounded to one decimal. -/
def qualitySpec (validated : List (String × JValue)) : ℚ :=
  let core_score : ℚ :=
    ((core_fields.countP (fun f => specPopulated (lookupKvs validated f)) : ℚ) / 25) * 50
  let critical_score : ℚ :=
    ((critical_fields.countP (fun f => otruthy (lookupKvs validated f)) : ℚ) / 5) * 40
  let line_items_bonus : ℚ :=
    match lookupKvs validated "line_items" with
    | some (JValue.arr xs) => if xs.isEmpty then 0 else min 10 (2 * (xs.length : ℚ))
    | _ => 0
  round1 (min 100 (core_score + critical_score + line_items_bonus))

/-- Spec-side quality formula exactly as the claim states it, with a core
set of 19 fields: the claim does not pin down which 19 field names form the
set, so the formula is parametrised by the populated core count `k`
(necessarily at most 19). -/
def qualitySpec19 (k : ℕ) (criticalPopulated : ℕ) (lineItemsBonus : ℚ) : ℚ :=
  round1 (min 100 (((k : ℚ) / 19) * 50 + ((criticalPopulated : ℚ) / 5) * 40 + lineItemsBonus))

/-- The spec-facing recommendation rule of §4.4, verbatim from the spec's
pseudocode. -/
def recSpec (quality risk matchScore : ℚ) : String :=
  if quality < 70 then "NEEDS_REVIEW"
  else if 70 ≤ risk then "REJECT"
  else if matchScore < 60 then "REJECT"
  else if 40 ≤ risk ∨ matchScore < 85 then "NEEDS_REVIEW"
  else "APPROVE"

/-- Outcome of the underlying Gemini call as seen by `_invoke_llm`:
either it raised / returned text that is not JSON (both are caught by the
method's `try` block), or it produced a parsed JSON value. -/
inductive LLMResp where
  | fail : String → LLMResp
  | json : JValue → LLMResp

/-- The fixed fallback FraudResult embedded in `_invoke_llm`'s `except`
branch: risk 50/MEDIUM, one SYSTEM signal worth 20 points, all four
checks marked not performed. -/
def fallbackFraud (msg : String) : JValue :=
  .obj
    [("risk_score", .num 50),
     ("risk_level", .str "MEDIUM"),
     ("signals", .arr
       [.obj
         [("type", .str "SYSTEM"),
          ("severity", .str "MEDIUM"),
          ("description", .str ("Agent error: " ++ msg)),
          ("risk_points", .num 20)]]),
     ("checks_performed", .obj
       [("bank_change", .bool false),
        ("duplicate", .bool false),
        ("amount_anomaly", .bool false),
        ("velocity", .bool false)])]

/-- The fixed fallback payload `_invoke_llm` returns from its `except`
branch, with the exception text `msg` interpolated. -/
def fallbackData (msg : String) : JValue :=
  .obj
    [("matching", .obj []),
     ("fraud", fallbackFraud msg),
     ("insights", .arr [.str ("Agent fallback due to error: " ++ msg)])]

/-- `AgenticValidationService._invoke_llm`: pass a parsed JSON value
through, or produce `fallbackData` on any call/parse failure. -/
def invoke_llm : LLMResp → JValue
  | .fail msg => fallbackData msg
  | .json v => v

/-- Python `d.get(k, default)`: `none` models the `AttributeError` raised
when the receiver is not a dict. -/
def dictGet (v : JValue) (k : String) (d : JValue) : Option JValue :=
  match v with
  | .obj kvs =>
    match lookupKvs kvs k with
    | some x => some x
    | none => some d
  | _ => none

/-- Python `d.setdefault(k, default)` on a dict value: insert at the end
when the key is absent; `Except.error` models the `AttributeError` raised
when the receiver is not a dict. -/
def setdefaultKv (v : JValue) (k : String) (d : JValue) : Except String JValue :=
  match v with
  | .obj kvs =>
    if (lookupKvs kvs k).isSome then .ok (.obj kvs)
    else .ok (.obj (kvs ++ [(k, d)]))
  | _ => .error "AttributeError: setdefault"

/-- One audit-trail entry (a `ProcessingEvent`): the wall-clock timestamp
carried by the real event is not modelled. -/
structure PEvent where
  stage : String
  message : String
  payload : Option (List (String × JValue)) := none

/-- Iterating `for insight in v` and wrapping each element as a
stage-tagged event.  Lists iterate their elements, strings their
characters, dicts their keys; other values raise `TypeError`. -/
def iterEvents (stage : String) : JValue → Except String (List PEvent)
  | .arr xs => .ok (xs.map (fun x => { stage := stage, message := pyStr x }))
  | .str s => .ok (s.toList.map (fun c => { stage := stage, message := String.singleton c }))
  | .obj kvs => .ok (kvs.map (fun kv => { stage := stage, message := kv.1 }))
  | _ => .error "TypeError: not iterable"

/-- `AgenticValidationService._match_agent`: invoke the capability, take
`data.get("matching", ⦃⦄)` as the matching result, and wrap
`data.get("insights", [])` as MATCH_AGENT events.  `Except.error` models
the uncaught exception raised when the parsed payload is not a dict (or
its insights are not iterable), which propagates out of the LangGraph
node. -/
def match_agent (resp : LLMResp) : Except String (JValue × List PEvent) :=
  let data := invoke_llm resp
  match dictGet data "matching" (.obj []) with
  | none => .error "AttributeError: get"
  | some matching =>
    match dictGet data "insights" (.arr []) with
    | none => .error "AttributeError: get"
    | some ins =>
      match iterEvents "MATCH_AGENT" ins with
      | .error e => .error e
      | .ok evs => .ok (matching, evs)

/-- The default `checks_performed` mapping `_fraud_agent` installs when the
key is absent. -/
def defaultChecks : JValue :=
  .obj
    [("bank_change", .bool true),
     ("duplicate", .bool true),
     ("amount_anomaly", .bool true),
     ("velocity", .bool true)]

/-- `AgenticValidationService._fraud_agent`: invoke the capability, take
`data.get("fraud", ⦃⦄)`, apply
`fraud.setdefault("checks_performed", defaults)`, and wrap
`data.get("insights", [])` as FRAUD_AGENT events. -/
def fraud_agent (resp : LLMResp) : Except String (JValue × List PEvent) :=
  let data := invoke_llm resp
  match dictGet data "fraud" (.obj []) with
  | none => .error "AttributeError: get"
  | some fraud0 =>
    match setdefaultKv fraud0 "checks_performed" defaultChecks with
    | .error e => .error e
    | .ok fraud =>
      match dictGet data "insights" (.arr []) with
      | none => .error "AttributeError: get"
      | some ins =>
        match iterEvents "FRAUD_AGENT" ins with
        | .error e => .error e
        | .ok evs => .ok (fraud, evs)

/-- Python numeric coercion inside a comparison `x >= n` / `x < n`:
numbers compare as themselves, booleans as 0/1, anything else raises
`TypeError`. -/
def asNum : JValue → Except String ℚ
  | .num q => .ok q
  | .bool b => .ok (if b then 1 else 0)
  | _ => .error "TypeError: comparison"

/-- `AgenticValidationService._determine_recommendation`, transcribed from
the source including its `.get(_, 0)` defaults and its evaluation order:
the extraction-quality gate fires before either score is compared (so a
non-numeric score raises only when its comparison is actually reached). -/
def determine_recommendation (matching fraud : JValue) (extraction_quality : ℚ) :
    Except String String :=
  match dictGet fraud "risk_score" (.num 0) with
  | none => .error "AttributeError: get"
  | some risk_score =>
    match dictGet matching "overall_score" (.num 0) with
    | none => .error "AttributeError: get"
    | some overall_score =>
      if extraction_quality < 70 then .ok "NEEDS_REVIEW"
      else
        match asNum risk_score with
        | .error e => .error e
        | .ok risk =>
          if 70 ≤ risk then .ok "REJECT"
          else
            match asNum overall_score with
            | .error e => .error e
            | .ok overall =>
              if overall < 60 then .ok "REJECT"
              else if 40 ≤ risk ∨ overall < 85 then .ok "NEEDS_REVIEW"
              else .ok "APPROVE"

/-- The `ValidationResult` assembled by `validate_invoice` (the fields no
claim inspects — `reasoning`, `summary` — are omitted). -/
structure VResult where
  matching : JValue
  fraud : JValue
  recommendation : String
  insights : List PEvent

/-- `AgenticValidationService.validate_invoice`: run the two-node LangGraph
workflow (match agent, then fraud agent, threading insights in stage
order) and derive the recommendation.  An uncaught exception in either
node or in the recommendation derivation propagates to the caller. -/
def validate_invoice (mResp fResp : LLMResp) (extraction_quality : ℚ) :
    Except String VResult :=
  match match_agent mResp with
  | .error e => .error e
  | .ok (matching, mEvs) =>
    match fraud_agent fResp with
    | .error e => .error e
    | .ok (fraud, fEvs) =>
      match determine_recommendation matching fraud extraction_quality with
      | .error e => .error e
      | .ok r =>
        .ok { matching := matching, fraud := fraud, recommendation := r,
              insights := mEvs ++ fEvs }

/-- Invoice status values used by the background pipeline. -/
inductive Status where
  | PROCESSING | EXTRACTING | MATCHING | FRAUD_CHECK
  | COMPLETED | FAILED
  | NO_PO_NUMBER | NO_PO_FOUND | NO_GRN_FOUND | NO_VENDOR_FOUND
deriving DecidableEq

/-- The persisted invoice record (aggregate root), restricted to the fields
the background task reads or writes.  `processing_log` holds the parsed
event list (the real record stores it JSON-serialized; serialization by
this system always round-trips). -/
structure InvoiceRec where
  status : Status
  recommendation : Option String := none
  processing_log : List PEvent := []
  invoice_number : Option JValue := none
  po_number : Option JValue := none
  grn_number : Option String := none
  vendor_id : Option String := none
  matching_result : Option JValue := none
  fraud_result : Option JValue := none
  processed_at : Bool := false

/-- A purchase-order record as read from the store. -/
structure PORec where
  po_number : String
  vendor_id : String
  vendor_name : String := ""
  total : ℚ := 0
  line_items : List JValue := []
  payment_terms : String := ""

/-- A goods-receipt record as read from the store. -/
structure GRNRec where
  grn_number : String
  po_number : String
  delivery_date : String := ""
  received_items : List JValue := []

/-- A vendor record as read from the store. -/
structure VendorRec where
  vendor_id : String
  vendor_name : String := ""
  bank_account : String := ""
  routing_number : String := ""
  bank_name : String := ""

/-- `PurchaseOrder.get(po_number)`: an SQL equality lookup against the
string key column; a non-string extracted value matches no row. -/
def poGet (pos : List PORec) : Option JValue → Option PORec
  | some (.str s) => pos.find? (fun p => p.po_number == s)
  | _ => none

/-- `GoodsReceipt.get(grn_number)`. -/
def grnGet (grns : List GRNRec) : Option JValue → Option GRNRec
  | some (.str s) => grns.find? (fun g => g.grn_number == s)
  | _ => none

/-- `GoodsReceipt.get_by_po_number(po_number)`: first stored goods receipt
whose `po_number` column matches. -/
def grnGetByPo (grns : List GRNRec) : Option JValue → Option GRNRec
  | some (.str s) => grns.find? (fun g => g.po_number == s)
  | _ => none

/-- `Vendor.get(vendor_id)`. -/
def vendorGet (vens : List VendorRec) (vid : String) : Option VendorRec :=
  vens.find? (fun v => v.vendor_id == vid)

/-- GRN resolution as performed by `process_invoice_background` (lines
129-135): exact lookup by the extracted `grn_number` when one was
extracted, falling back to the by-`po_number` lookup when that produced
nothing. -/
def resolveGRN (grns : List GRNRec) (grnNum poNum : Option JValue) : Option GRNRec :=
  let g1 := if otruthy grnNum then grnGet grns grnNum else none
  match g1 with
  | some g => some g
  | none => grnGetByPo grns poNum

/-- The result dict `ADEService.extract_invoice` always returns (both on
its success path and through every fallback): a flat field map plus its
quality score and diagnostics. -/
structure ExtractionResult where
  fields : List (String × JValue)
  quality_score : ℚ
  field_count : ℕ
  extraction_time_seconds : ℚ := 0

/-- The `get_field` helper of `process_invoice_background`: direct key
match on the flat map, else the first value found under a one-level-nested
dict, scanning categories in insertion order. -/
def findNested : List (String × JValue) → String → Option JValue
  | [], _ => none
  | (_, .obj kvs) :: rest, name =>
    match lookupKvs kvs name with
    | some v => some v
    | none => findNested rest name
  | _ :: rest, name => findNested rest name

/-- `get_field(fields, field_name)` from `process_invoice_background`. -/
def get_field (fields : List (String × JValue)) (name : String) : Option JValue :=
  match lookupKvs fields name with
  | some v => some v
  | none => findNested fields name

/-- One `Invoice.update(invoice_id, ...)` call: each field is `some` iff
the corresponding keyword argument was passed. -/
structure InvUpdate where
  status : Option Status := none
  recommendation : Option String := none
  processing_log : Option (List PEvent) := none
  invoice_number : Option (Option JValue) := none
  po_number : Option JValue := none
  grn_number : Option String := none
  vendor_id : Option String := none
  extracted_data : Option ExtractionResult := none
  matching_result : Option JValue := none
  fraud_result : Option JValue := none
  processed_at : Bool := false

/-- Apply one update to the stored record (the `setattr` loop of
`Invoice.update`). -/
def applyUpd (r : InvoiceRec) (u : InvUpdate) : InvoiceRec :=
  { status := u.status.getD r.status
    recommendation := (u.recommendation).orElse (fun _ => r.recommendation)
    processing_log := (u.processing_log).getD r.processing_log
    invoice_number := (u.invoice_number).getD r.invoice_number
    po_number := (u.po_number).orElse (fun _ => r.po_number)
    grn_number := (u.grn_number).orElse (fun _ => r.grn_number)
    vendor_id := (u.vendor_id).orElse (fun _ => r.vendor_id)
    matching_result := (u.matching_result).orElse (fun _ => r.matching_result)
    fraud_result := (u.fraud_result).orElse (fun _ => r.fraud_result)
    processed_at := r.processed_at || u.processed_at }

/-- Apply a sequence of updates in call order. -/
def applyUpdates (r : InvoiceRec) (us : List InvUpdate) : InvoiceRec :=
  us.foldl applyUpd r

/-- The initial UPLOAD event seeded by `upload_invoice`. -/
def uploadEv : PEvent :=
  { stage := "UPLOAD", message := "Invoice uploaded and queued for ADE extraction." }

/-- The invoice record `upload_invoice` creates before launching the
background task. -/
def uploadRecord : InvoiceRec :=
  { status := .PROCESSING, processing_log := [uploadEv] }

/-- Events appended by `process_invoice_background`. -/
def pipelineEv : PEvent :=
  { stage := "PIPELINE", message := "Invoice received. Preparing extraction." }

/-- The ADE_EXTRACTION event, with its structured payload. -/
def adeEv (ex : ExtractionResult) : PEvent :=
  { stage := "ADE_EXTRACTION",
    message := "Extracted " ++ toString ex.field_count ++ " fields in "
      ++ pyStr (.num ex.extraction_time_seconds) ++ "s",
    payload := some [("quality_score", .num ex.quality_score),
                     ("field_count", .num (ex.field_count : ℚ))] }

/-- The ERROR event appended by the task's top-level exception handler. -/
def errEv (msg : String) : PEvent :=
  { stage := "ERROR", message := "Error processing invoice: " ++ msg }

/-- MATCHING-stage failure event: no PO number extracted. -/
def noPoNumberEv : PEvent :=
  { stage := "MATCHING", message := "Failed: No PO number found in extraction." }

/-- MATCHING-stage failure event: PO absent from the store. -/
def poNotFoundEv (poNum : Option JValue) : PEvent :=
  { stage := "MATCHING", message := "PO " ++ pyStrOpt poNum ++ " not found in database." }

/-- MATCHING-stage failure event: no GRN resolved. -/
def grnNotFoundEv (poNum : Option JValue) : PEvent :=
  { stage := "MATCHING", message := "GRN not found for PO " ++ pyStrOpt poNum ++ "." }

/-- MATCHING-stage failure event: vendor absent from the store. -/
def vendorNotFoundEv (vid : String) : PEvent :=
  { stage := "MATCHING", message := "Vendor " ++ vid ++ " not found." }

/-- MATCHING-stage event logged when PO, GRN and vendor all resolved. -/
def foundEv (poNum : Option JValue) (vid : String) : PEvent :=
  { stage := "MATCHING",
    message := "Found PO " ++ pyStrOpt poNum ++ ", GRN, and vendor " ++ vid
      ++ ". Beginning agentic validation." }

/-- MATCH_AGENT event logged just before the validation workflow starts. -/
def startAgentsEv : PEvent :=
  { stage := "MATCH_AGENT", message := "Starting LangGraph validation agents." }

/-- VALIDATION summary event (logged only after the strict subscript reads
of `overall_score` and `risk_score` succeeded). -/
def validationEv (ms rs : JValue) (recommendation : String) : PEvent :=
  { stage := "VALIDATION",
    message := "Match " ++ pyStr ms ++ "/100, Risk " ++ pyStr rs
      ++ "/100, Recommendation " ++ recommendation }

/-- Strict Python subscript `v[k]`: `none` models the `KeyError`/`TypeError`
raised when the key is missing or the receiver is not a dict. -/
def jIndex (v : JValue) (k : String) : Option JValue :=
  match v with
  | .obj kvs => lookupKvs kvs k
  | _ => none

/-- `process_invoice_background`, transcribed from the source as the
ordered list of `Invoice.update` calls it issues.  The two awaited
external calls — ADE extraction and the validation workflow — are the
failure points, supplied as explicit outcomes; the task's top-level
`except` handler turns either failure (and the strict subscript reads of
`validation_result['matching']['overall_score']` /
`['fraud']['risk_score']`, which raise on a payload missing those keys)
into an ERROR event plus a FAILED update that persists the accumulated
log.  The vendor lookup is performed before the GRN early-exit check in
the source; being a pure read, it is evaluated in place here without
observable difference. -/
def runPipeline (inv : Option InvoiceRec) (pos : List PORec) (grns : List GRNRec)
    (vens : List VendorRec) (extract : Except String ExtractionResult)
    (mResp fResp : LLMResp) : List InvUpdate :=
  match inv with
  | none => []
  | some invoice_record =>
    let e1 := invoice_record.processing_log ++ [pipelineEv]
    let u1 : InvUpdate := { processing_log := some e1 }
    let u2 : InvUpdate := { status := some .EXTRACTING }
    match extract with
    | .error msg =>
      let eErr := e1 ++ [errEv msg]
      [u1, u2, { processing_log := some eErr },
       { status := some .FAILED, processing_log := some eErr }]
    | .ok ex =>
      let e2 := e1 ++ [adeEv ex]
      let u3 : InvUpdate := { processing_log := some e2 }
      let u4 : InvUpdate := { extracted_data := some ex }
      let u5 : InvUpdate := { invoice_number := some (get_field ex.fields "invoice_number") }
      let poNum := get_field ex.fields "po_number"
      let grnNum := get_field ex.fields "grn_number"
      if otruthy poNum then
        let u6 : InvUpdate := { status := some .MATCHING }
        match poGet pos poNum with
        | none =>
          let e3 := e2 ++ [poNotFoundEv poNum]
          [u1, u2, u3, u4, u5, u6, { processing_log := some e3 },
           { status := some .NO_PO_FOUND, recommendation := some "REVIEW" }]
        | some po =>
          match resolveGRN grns grnNum poNum with
          | none =>
            let e3 := e2 ++ [grnNotFoundEv poNum]
            [u1, u2, u3, u4, u5, u6, { processing_log := some e3 },
             { status := some .NO_GRN_FOUND, recommendation := some "REVIEW" }]
          | some grn =>
            match vendorGet vens po.vendor_id with
            | none =>
              let e3 := e2 ++ [vendorNotFoundEv po.vendor_id]
              [u1, u2, u3, u4, u5, u6, { processing_log := some e3 },
               { status := some .NO_VENDOR_FOUND, recommendation := some "REVIEW" }]
            | some _vendor =>
              let e3 := e2 ++ [foundEv poNum po.vendor_id]
              let u7 : InvUpdate := { processing_log := some e3 }
              let u8 : InvUpdate := { status := some .FRAUD_CHECK }
              let e4 := e3 ++ [startAgentsEv]
              let u9 : InvUpdate := { processing_log := some e4 }
              match validate_invoice mResp fResp ex.quality_score with
              | .error msg =>
                let eErr := e4 ++ [errEv msg]
                [u1, u2, u3, u4, u5, u6, u7, u8, u9,
                 { processing_log := some eErr },
                 { status := some .FAILED, processing_log := some eErr }]
              | .ok vr =>
                let e5 := e4 ++ vr.insights
                let u10 : InvUpdate := { processing_log := some e5 }
                match jIndex vr.matching "overall_score", jIndex vr.fraud "risk_score" with
                | some ms, some rs =>
                  let e6 := e5 ++ [validationEv ms rs vr.recommendation]
                  let u11 : InvUpdate := { processing_log := some e6 }
                  let u12 : InvUpdate :=
                    { vendor_id := some po.vendor_id,
                      po_number := poNum,
                      grn_number := some grn.grn_number,
                      matching_result := some vr.matching,
                      fraud_result := some vr.fraud,
                      recommendation := some vr.recommendation,
                      status := some .COMPLETED,
                      processed_at := true,
                      processing_log := some e6 }
                  [u1, u2, u3, u4, u5, u6, u7, u8, u9, u10, u11, u12]
                | _, _ =>
                  let eErr := e5 ++ [errEv "KeyError"]
                  [u1, u2, u3, u4, u5, u6, u7, u8, u9, u10,
                   { processing_log := some eErr },
                   { status := some .FAILED, processing_log := some eErr }]
      else
        let e3 := e2 ++ [noPoNumberEv]
        [u1, u2, u3, u4, u5, { processing_log := some e3 },
         { status := some .NO_PO_NUMBER, recommendation := some "REVIEW" }]

/-- The invoice record as persisted when the background task returns. -/
def finalInvoice (rec : InvoiceRec) (pos : List PORec) (grns : List GRNRec)
    (vens : List VendorRec) (extract : Except String ExtractionResult)
    (mResp fResp : LLMResp) : InvoiceRec :=
  applyUpdates rec (runPipeline (some rec) pos grns vens extract mResp fResp)

/-- The successive values written to the persisted `processing_log` column
by a sequence of updates, in write order. -/
def logWrites (us : List InvUpdate) : List (List PEvent) :=
  us.filterMap (fun u => u.processing_log)

/-- `b` extends `a`: `b` is `a` with zero or more events appended — nothing
truncated, mutated or reordered. -/
def extendsLog (a b : List PEvent) : Prop := ∃ t, b = a ++ t

/-- The terminal statuses of the state machine. -/
def terminalStatuses : List Status :=
  [.COMPLETED, .FAILED, .NO_PO_NUMBER, .NO_PO_FOUND, .NO_GRN_FOUND, .NO_VENDOR_FOUND]

/-- The early-exit terminal statuses. -/
def earlyExitStatuses : List Status :=
  [.NO_PO_NUMBER, .NO_PO_FOUND, .NO_GRN_FOUND, .NO_VENDOR_FOUND]

/-- A concrete field map populating exactly the five critical fields (all
of which happen to be core fields as well). -/
def cexQualityMap : List (String × JValue) :=
  [("vendor_name", .str "Acme"), ("invoice_number", .str "INV-1"),
   ("total", .num 100), ("invoice_date", .str "2024-01-01"),
   ("po_number", .str "PO-1")]

/-- A concrete successful extraction whose invoice references PO-9. -/
def exNoPoStore : ExtractionResult :=
  { fields := [("po_number", .str "PO-9"), ("invoice_number", .str "I-1")],
    quality_score := 80, field_count := 2, extraction_time_seconds := 1 }

/-- A goods receipt stored under the exact grn_number an invoice extracts. -/
def grnExact : GRNRec := { grn_number := "G-EXACT", po_number := "PO-1" }

/-- A different goods receipt on file for the same po_number. -/
def grnOther : GRNRec := { grn_number := "G-OTHER", po_number := "PO-1" }

/-- A partial checks_performed mapping as an LLM payload: only one of the
four expected keys is present. -/
def partialChecksResp : LLMResp :=
  .json (.obj [("fraud", .obj [("checks_performed",
    .obj [("bank_change", .bool false)])])])

/-- Helper: the populated test used for core fields in the code
(`validated.get(f) not in [None, '', 0, []]`) agrees pointwise with the
spec-worded populated predicate. -/
theorem corePopulated_eq_specPopulated (validated : List (String × JValue)) (f : String) :
    corePopulated validated f = specPopulated (lookupKvs validated f) := by
  unfold corePopulated specPopulated inNoneEmptyZero
  cases lookupKvs validated f with
  | none => rfl
  | some x => cases x <;> simp

/-- Helper: appending events extends a log. -/
theorem extendsLog_append (a t : List PEvent) : extendsLog a (a ++ t) := ⟨t, rfl⟩

/-- Helper: rewriting a log with the same value extends it. -/
theorem extendsLog_self (a : List PEvent) : extendsLog a a :=
  ⟨[], (List.append_nil a).symm⟩

/-- C1: the recommendation derivation is a pure deterministic function of
the (matching, fraud, extraction_quality) triple — being a total Lean
function of exactly those inputs, two calls with identical inputs are the
same term — and for any matching/fraud payloads carrying numeric
`overall_score` and `risk_score` it returns exactly the spec's §4.4 rule
chain, checks short-circuited top-to-bottom with the extraction-quality
gate first: NEEDS_REVIEW if quality < 70, else REJECT if risk ≥ 70, else
REJECT if match < 60, else NEEDS_REVIEW if risk ≥ 40 or match < 85, else
APPROVE. -/
theorem C1_recommendation_deterministic_rule
    (mkvs fkvs : List (String × JValue)) (q r m : ℚ)
    (hr : lookupKvs fkvs "risk_score" = some (JValue.num r))
    (hm : lookupKvs mkvs "overall_score" = some (JValue.num m)) :
    determine_recommendation (JValue.obj mkvs) (JValue.obj fkvs) q =
      Except.ok (recSpec q r m) := by
  simp only [determine_recommendation, dictGet, hr, hm, recSpec, asNum]
  split_ifs <;> rfl

/-- Witness for C1 at the spec's own example: quality 60, risk 0, match
100 yields NEEDS_REVIEW — the quality gate beats a perfect match. -/
theorem C1_witness_quality_gate :
    determine_recommendation (JValue.obj [("overall_score", JValue.num 100)])
      (JValue.obj [("risk_score", JValue.num 0)]) 60 = Except.ok (recSpec 60 0 100) ∧
    recSpec 60 0 100 = "NEEDS_REVIEW" :=
  ⟨C1_recommendation_deterministic_rule
      [("overall_score", JValue.num 100)] [("risk_score", JValue.num 0)] 60 0 100 rfl rfl,
   rfl⟩

/-- C2 counterexample: on a map populating exactly the five critical
fields (no line items), the code computes quality 50.0 — core coverage is
counted out of the 25-entry `core_fields` list, (5/25)*50 + (5/5)*40 = 50
— while the claim's formula with denominator 19 cannot produce 50.0 for
any possible populated-core count k ≤ 19 (the nearest candidates are 47.9
at k = 3 and 50.5 at k = 4). -/
theorem C2_counterexample_core_is_25_not_19 :
    calculate_quality cexQualityMap = 50 ∧
    critical_fields.countP (fun f => otruthy (lookupKvs cexQualityMap f)) = 5 ∧
    lookupKvs cexQualityMap "line_items" = none ∧
    ∀ k : ℕ, k ≤ 19 → qualitySpec19 k 5 0 ≠ 50 := by
  refine ⟨?_, by decide, rfl, ?_⟩
  · have hcore : core_fields.countP (fun f => corePopulated cexQualityMap f) = 5 := by
      decide
    have hcrit :
        critical_fields.countP (fun f => otruthy (lookupKvs cexQualityMap f)) = 5 := by
      decide
    have hli : lookupKvs cexQualityMap "line_items" = none := rfl
    have hlen : core_fields.length = 25 := by decide
    have hclen : critical_fields.length = 5 := by decide
    simp only [calculate_quality, hcore, hcrit, hli, hlen, hclen]
    norm_num [round1, roundHalfEven, min_def]
  · intro k hk
    interval_cases k <;> norm_num [qualitySpec19, round1, roundHalfEven, min_def]

/-- C2 amended: the quality score follows the claimed formula with the
core set being the 25-entry `core_fields` list (so core coverage is worth
50 points out of 25 fields), critical coverage counted by Python
truthiness out of 5 worth 40 points, plus `min 10 (2·count line_items)`
for a non-empty line-items list, capped at 100 and rounded to one
decimal; a core field is populated iff its value is not
null/empty-string/zero/empty-list. -/
theorem C2_amended_quality_formula (validated : List (String × JValue)) :
    calculate_quality validated = qualitySpec validated := by
  unfold calculate_quality qualitySpec
  have h : (fun f => corePopulated validated f)
      = (fun f => specPopulated (lookupKvs validated f)) :=
    funext (corePopulated_eq_specPopulated validated)
  rw [h]
  have hl : ((core_fields.length : ℕ) : ℚ) = 25 := by norm_num [core_fields]
  have hc : ((critical_fields.length : ℕ) : ℚ) = 5 := by norm_num [critical_fields]
  rw [hl, hc]
  cases hli : lookupKvs validated "line_items" with
  | none => simp
  | some v =>
    cases v <;> simp
    case arr xs =>
      cases xs with
      | nil => simp
      | cons a t => simp [mul_comm]

/-- C3 counterexample: at (quality 70, risk 69, match 85) the code
returns NEEDS_REVIEW, not APPROVE as the claim's first boundary tuple
asserts — risk 69 ≥ 40 triggers the NEEDS_REVIEW rule. -/
theorem C3_counterexample_first_boundary :
    determine_recommendation (JValue.obj [("overall_score", JValue.num 85)])
      (JValue.obj [("risk_score", JValue.num 69)]) 70 = Except.ok "NEEDS_REVIEW" ∧
    determine_recommendation (JValue.obj [("overall_score", JValue.num 85)])
      (JValue.obj [("risk_score", JValue.num 69)]) 70 ≠ Except.ok "APPROVE" := by
  have h1 : determine_recommendation (JValue.obj [("overall_score", JValue.num 85)])
      (JValue.obj [("risk_score", JValue.num 69)]) 70 = Except.ok "NEEDS_REVIEW" := rfl
  refine ⟨h1, ?_⟩
  rw [h1]
  intro h
  exact absurd (Except.ok.inj h) (by decide)

/-- C3 amended: the recommendation at the four boundary inputs is
(70, 69, 85) → NEEDS_REVIEW (not APPROVE: risk 69 exceeds the 40
threshold), (70, 70, 100) → REJECT, (70, 0, 59) → REJECT and
(70, 45, 90) → NEEDS_REVIEW. -/
theorem C3_amended_boundaries :
    determine_recommendation (JValue.obj [("overall_score", JValue.num 85)])
      (JValue.obj [("risk_score", JValue.num 69)]) 70 = Except.ok "NEEDS_REVIEW" ∧
    determine_recommendation (JValue.obj [("overall_score", JValue.num 100)])
      (JValue.obj [("risk_score", JValue.num 70)]) 70 = Except.ok "REJECT" ∧
    determine_recommendation (JValue.obj [("overall_score", JValue.num 59)])
      (JValue.obj [("risk_score", JValue.num 0)]) 70 = Except.ok "REJECT" ∧
    determine_recommendation (JValue.obj [("overall_score", JValue.num 90)])
      (JValue.obj [("risk_score", JValue.num 45)]) 70 = Except.ok "NEEDS_REVIEW" :=
  ⟨rfl, rfl, rfl, rfl⟩

/-- C4 counterexample: when the generative call fails, the matching agent's
fallback MatchingResult is the empty mapping — it carries no
`invoice_po_score`, no `overall_status` and no other score/status keys,
rather than explicit zero scores and an UNKNOWN status as claimed. -/
theorem C4_counterexample_empty_matching_fallback :
    match_agent (.fail "boom") =
      Except.ok (JValue.obj [],
        [{ stage := "MATCH_AGENT", message := "Agent fallback due to error: boom" }]) ∧
    jIndex (JValue.obj []) "overall_status" = none ∧
    jIndex (JValue.obj []) "invoice_po_score" = none ∧
    jIndex (JValue.obj []) "overall_score" = none :=
  ⟨rfl, rfl, rfl, rfl⟩

/-- C4 amended: for every failure of the underlying generative call
(exception or non-JSON response), neither agent propagates the error: the
matching agent returns the empty mapping as its fallback MatchingResult
(downstream `.get` reads default its scores to 0 and statuses to
UNKNOWN), and the fraud agent returns the fixed fallback FraudResult —
risk_score 50, risk_level MEDIUM, a single SYSTEM signal with risk_points
20, and all four checks_performed false — each with one fallback insight
event. -/
theorem C4_amended_agent_fallbacks (msg : String) :
    match_agent (.fail msg) =
      Except.ok (JValue.obj [],
        [{ stage := "MATCH_AGENT", message := "Agent fallback due to error: " ++ msg }]) ∧
    fraud_agent (.fail msg) =
      Except.ok (fallbackFraud msg,
        [{ stage := "FRAUD_AGENT", message := "Agent fallback due to error: " ++ msg }]) :=
  ⟨rfl, rfl⟩

/-- C5 counterexample: a generative output whose checks_performed mapping
is partial (only `bank_change` present) is passed through unchanged — the
resulting FraudResult's checks_performed does not contain the key
`duplicate`, so individually missing keys are not defaulted to true. -/
theorem C5_counterexample_partial_checks_passthrough :
    fraud_agent partialChecksResp =
      Except.ok (.obj [("checks_performed", .obj [("bank_change", .bool false)])], []) ∧
    jIndex (JValue.obj [("bank_change", JValue.bool false)]) "duplicate" = none :=
  ⟨rfl, rfl⟩

/-- C5 amended: the fraud agent defaults checks_performed as a whole —
when the key is entirely absent from the generative output's fraud
object, it installs the complete four-key mapping (bank_change,
duplicate, amount_anomaly, velocity, all true); when the key is present,
even with a partial mapping, the value is passed through unchanged. -/
theorem C5_amended_checks_setdefault (kvs : List (String × JValue)) :
    (lookupKvs kvs "checks_performed" = none →
      fraud_agent (.json (.obj [("fraud", .obj kvs)])) =
        Except.ok (.obj (kvs ++ [("checks_performed", defaultChecks)]), [])) ∧
    (∀ v, lookupKvs kvs "checks_performed" = some v →
      fraud_agent (.json (.obj [("fraud", .obj kvs)])) = Except.ok (.obj kvs, [])) := by
  have key : fraud_agent (.json (.obj [("fraud", .obj kvs)])) =
      (match setdefaultKv (.obj kvs) "checks_performed" defaultChecks with
       | .error e => .error e
       | .ok fraud => .ok (fraud, [])) := rfl
  constructor
  · intro h
    rw [key]
    simp [setdefaultKv, h]
  · intro v h
    rw [key]
    simp [setdefaultKv, h]

/-- Witness for C5 at a fraud object that lacks checks_performed: the
default four-key all-true mapping is appended. -/
theorem C5_witness_absent_checks :
    lookupKvs [("risk_score", JValue.num 10)] "checks_performed" = none ∧
    fraud_agent (.json (.obj [("fraud", .obj [("risk_score", JValue.num 10)])])) =
      Except.ok (.obj ([("risk_score", JValue.num 10)]
        ++ [("checks_performed", defaultChecks)]), []) :=
  ⟨rfl, (C5_amended_checks_setdefault [("risk_score", JValue.num 10)]).1 rfl⟩

/-- C6: for every invoice record present in the store when the background
task starts, and for every outcome of the extraction call, the store
lookups and the validation workflow, the status persisted when the task
returns is one of the six terminal statuses COMPLETED, FAILED,
NO_PO_NUMBER, NO_PO_FOUND, NO_GRN_FOUND, NO_VENDOR_FOUND — no execution
path leaves the invoice in a non-terminal state. -/
theorem C6_pipeline_terminates_in_terminal_status
    (rec : InvoiceRec) (pos : List PORec) (grns : List GRNRec)
    (vens : List VendorRec) (extract : Except String ExtractionResult)
    (mResp fResp : LLMResp) :
    (finalInvoice rec pos grns vens extract mResp fResp).status ∈ terminalStatuses := by
  simp only [finalInvoice, runPipeline]
  repeat' split
  all_goals simp [applyUpdates, applyUpd, terminalStatuses]

/-- C7: on every execution path of the background task — the FAILED error
paths included — the successive values written to the persisted
processing_log each extend the previously persisted value: the previous
sequence is a prefix of the next, so the length is non-decreasing and no
event is ever truncated, mutated or reordered. -/
theorem C7_processing_log_append_only
    (rec : InvoiceRec) (pos : List PORec) (grns : List GRNRec)
    (vens : List VendorRec) (extract : Except String ExtractionResult)
    (mResp fResp : LLMResp) :
    List.Chain' extendsLog
      (rec.processing_log ::
        logWrites (runPipeline (some rec) pos grns vens extract mResp fResp)) := by
  simp only [runPipeline]
  repeat' split
  all_goals simp only [logWrites, List.filterMap]
  all_goals simp only [List.chain'_cons, List.chain'_singleton, and_true]
  all_goals repeat' apply And.intro
  all_goals first
    | exact extendsLog_append _ _
    | exact extendsLog_self _

/-- C8: GRN resolution prefers the exact grn_number lookup — whenever a
truthy grn_number was extracted and resolves, that goods receipt is used
regardless of what the by-po_number lookup would return; the by-po_number
fallback is consulted exactly when no grn_number was extracted or the
exact lookup fails; and when a run reaches GRN resolution (PO number
extracted and PO found) and both paths fail, the task terminates with
status NO_GRN_FOUND. -/
theorem C8_grn_exact_lookup_precedence
    (grns : List GRNRec) (gnum poNum : Option JValue) :
    (∀ g : GRNRec, otruthy gnum = true → grnGet grns gnum = some g →
      resolveGRN grns gnum poNum = some g) ∧
    (otruthy gnum = false → resolveGRN grns gnum poNum = grnGetByPo grns poNum) ∧
    (grnGet grns gnum = none → resolveGRN grns gnum poNum = grnGetByPo grns poNum) ∧
    (∀ (rec : InvoiceRec) (pos : List PORec) (vens : List VendorRec)
        (ex : ExtractionResult) (mResp fResp : LLMResp) (po : PORec),
      otruthy (get_field ex.fields "po_number") = true →
      poGet pos (get_field ex.fields "po_number") = some po →
      resolveGRN grns (get_field ex.fields "grn_number")
        (get_field ex.fields "po_number") = none →
      (finalInvoice rec pos grns vens (.ok ex) mResp fResp).status =
        Status.NO_GRN_FOUND) := by
  refine ⟨?_, ?_, ?_, ?_⟩
  · intro g ht hg
    simp [resolveGRN, ht, hg]
  · intro hf
    simp [resolveGRN, hf]
  · intro hn
    cases ht : otruthy gnum <;> simp [resolveGRN, ht, hn]
  · intro rec pos vens ex mResp fResp po hpo hpoGet hgrn
    simp [finalInvoice, runPipeline, hpo, hpoGet, hgrn, applyUpdates, applyUpd]

/-- Witness for C8: with both an exactly-matching receipt (G-EXACT) and a
different receipt (G-OTHER) on file for the same PO — and G-OTHER first
in store order, so the by-po_number lookup would pick it — resolution
returns the exact receipt. -/
theorem C8_witness_exact_beats_by_po :
    otruthy (some (JValue.str "G-EXACT")) = true ∧
    grnGet [grnOther, grnExact] (some (JValue.str "G-EXACT")) = some grnExact ∧
    grnGetByPo [grnOther, grnExact] (some (JValue.str "PO-1")) = some grnOther ∧
    resolveGRN [grnOther, grnExact] (some (JValue.str "G-EXACT"))
      (some (JValue.str "PO-1")) = some grnExact :=
  ⟨rfl, rfl, rfl,
    (C8_grn_exact_lookup_precedence [grnOther, grnExact]
      (some (JValue.str "G-EXACT")) (some (JValue.str "PO-1"))).1 grnExact rfl rfl⟩

/-- C9 counterexample: a freshly uploaded invoice whose successful
extraction references PO-9 with an empty PO store ends in NO_PO_FOUND,
but with four persisted log events, not two — the task also logs a
PIPELINE preparation event and an ADE_EXTRACTION event before the
MATCHING failure. -/
theorem C9_counterexample_four_events :
    (finalInvoice uploadRecord [] [] [] (.ok exNoPoStore) (.fail "a") (.fail "b")).status =
      Status.NO_PO_FOUND ∧
    (finalInvoice uploadRecord [] [] [] (.ok exNoPoStore) (.fail "a")
      (.fail "b")).processing_log.length = 4 ∧
    (finalInvoice uploadRecord [] [] [] (.ok exNoPoStore) (.fail "a")
      (.fail "b")).processing_log.length ≠ 2 :=
  ⟨rfl, rfl, by decide⟩

/-- C9 amended: an upload whose extraction succeeds and references a
po_number absent from the store ends in status NO_PO_FOUND with a
processing_log of exactly four events, in order: the UPLOAD event, the
PIPELINE preparation event, the ADE_EXTRACTION event, then the
MATCHING-stage failure message. -/
theorem C9_amended_no_po_found_log
    (pos : List PORec) (grns : List GRNRec) (vens : List VendorRec)
    (ex : ExtractionResult) (mResp fResp : LLMResp)
    (hpo : otruthy (get_field ex.fields "po_number") = true)
    (hnf : poGet pos (get_field ex.fields "po_number") = none) :
    (finalInvoice uploadRecord pos grns vens (.ok ex) mResp fResp).status =
      Status.NO_PO_FOUND ∧
    (finalInvoice uploadRecord pos grns vens (.ok ex) mResp fResp).processing_log =
      [uploadEv, pipelineEv, adeEv ex, poNotFoundEv (get_field ex.fields "po_number")] := by
  simp [finalInvoice, runPipeline, hpo, hnf, applyUpdates, applyUpd, uploadRecord]

/-- Witness for C9 at a concrete run: extraction references PO-9, the PO
store is empty. -/
theorem C9_witness_concrete_run :
    otruthy (get_field exNoPoStore.fields "po_number") = true ∧
    (finalInvoice uploadRecord [] [] [] (.ok exNoPoStore) (.fail "a")
      (.fail "b")).processing_log =
      [uploadEv, pipelineEv, adeEv exNoPoStore,
       poNotFoundEv (get_field exNoPoStore.fields "po_number")] :=
  ⟨rfl, (C9_amended_no_po_found_log [] [] [] exNoPoStore (.fail "a") (.fail "b") rfl rfl).2⟩

/-- C10: whenever the background task ends in one of the early-exit
terminal statuses (NO_PO_NUMBER, NO_PO_FOUND, NO_GRN_FOUND,
NO_VENDOR_FOUND), the persisted recommendation is the literal string
REVIEW — a value outside the APPROVE/NEEDS_REVIEW/REJECT recommendation
enum. -/
theorem C10_early_exit_review_recommendation
    (rec : InvoiceRec) (pos : List PORec) (grns : List GRNRec)
    (vens : List VendorRec) (extract : Except String ExtractionResult)
    (mResp fResp : LLMResp)
    (h : (finalInvoice rec pos grns vens extract mResp fResp).status ∈ earlyExitStatuses) :
    (finalInvoice rec pos grns vens extract mResp fResp).recommendation = some "REVIEW" ∧
    "REVIEW" ∉ ["APPROVE", "NEEDS_REVIEW", "REJECT"] := by
  refine ⟨?_, by decide⟩
  simp only [finalInvoice, runPipeline] at h ⊢
  revert h
  repeat' split
  all_goals intro h
  all_goals simp [applyUpdates, applyUpd, earlyExitStatuses] at h ⊢

/-- Witness for C10 at a concrete NO_PO_FOUND run: the early-exit status
holds and the persisted recommendation is REVIEW. -/
theorem C10_witness_no_po_found_review :
    (finalInvoice uploadRecord [] [] [] (.ok exNoPoStore) (.fail "a")
      (.fail "b")).recommendation = some "REVIEW" :=
  (C10_early_exit_review_recommendation uploadRecord [] [] [] (.ok exNoPoStore)
    (.fail "a") (.fail "b")
    ((rfl :
        (finalInvoice uploadRecord [] [] [] (.ok exNoPoStore) (.fail "a")
          (.fail "b")).status = Status.NO_PO_FOUND) ▸
      (by decide : Status.NO_PO_FOUND ∈ earlyExitStatuses))).1
